import Mathlib

/-!
Shallow embedding of the wasm3-rs binding core (src/error.rs and src/runtime.rs)
and proofs about its error model and runtime operations.

Engine pointers (`*const c_char` sentinels, object handles) are modelled as
natural numbers, with `0` playing the role of the null pointer.  The static
engine sentinels (`ffi::m3Err_*`) are fields of an `FFI` record, so every
statement is parametric in the actual sentinel addresses; facts that need the
sentinels to be distinct take that as an explicit hypothesis.  Engine calls
(module linking, function resolution, memory queries) are external, so the
status pointers and handles they produce enter the model as parameters.
-/

namespace Wasm3

/-- A raw engine pointer; `0` is the null pointer. -/
abbrev Ptr := Nat

/-- The static sentinel pointers exported by the engine (`ffi::m3Err_*`).
Each field stands for the address of one static C string. -/
structure FFI where
  m3Err_trapOutOfBoundsMemoryAccess : Ptr
  m3Err_trapDivisionByZero : Ptr
  m3Err_trapIntegerOverflow : Ptr
  m3Err_trapIntegerConversion : Ptr
  m3Err_trapIndirectCallTypeMismatch : Ptr
  m3Err_trapTableIndexOutOfRange : Ptr
  m3Err_trapExit : Ptr
  m3Err_trapAbort : Ptr
  m3Err_trapUnreachable : Ptr
  m3Err_trapStackOverflow : Ptr
  m3Err_functionLookupFailed : Ptr
  m3Err_mallocFailed : Ptr
deriving DecidableEq

/-- The `Trap` enum of src/error.rs. -/
inductive Trap where
  | OutOfBoundsMemoryAccess
  | DivisionByZero
  | IntegerOverflow
  | IntegerConversion
  | IndirectCallTypeMismatch
  | TableIndexOutOfRange
  | Exit
  | Abort
  | Unreachable
  | StackOverflow
deriving DecidableEq

/-- `Trap::as_ptr` of src/error.rs: the engine sentinel of a trap kind. -/
def Trap.as_ptr (t : Trap) (ffi : FFI) : Ptr :=
  match t with
  | Trap.OutOfBoundsMemoryAccess => ffi.m3Err_trapOutOfBoundsMemoryAccess
  | Trap.DivisionByZero => ffi.m3Err_trapDivisionByZero
  | Trap.IntegerOverflow => ffi.m3Err_trapIntegerOverflow
  | Trap.IntegerConversion => ffi.m3Err_trapIntegerConversion
  | Trap.IndirectCallTypeMismatch => ffi.m3Err_trapIndirectCallTypeMismatch
  | Trap.TableIndexOutOfRange => ffi.m3Err_trapTableIndexOutOfRange
  | Trap.Exit => ffi.m3Err_trapExit
  | Trap.Abort => ffi.m3Err_trapAbort
  | Trap.Unreachable => ffi.m3Err_trapUnreachable
  | Trap.StackOverflow => ffi.m3Err_trapStackOverflow

/-- The ten trap sentinels, in the order the source lists them. -/
def FFI.trapSentinels (ffi : FFI) : List Ptr :=
  [ffi.m3Err_trapOutOfBoundsMemoryAccess,
   ffi.m3Err_trapDivisionByZero,
   ffi.m3Err_trapIntegerOverflow,
   ffi.m3Err_trapIntegerConversion,
   ffi.m3Err_trapIndirectCallTypeMismatch,
   ffi.m3Err_trapTableIndexOutOfRange,
   ffi.m3Err_trapExit,
   ffi.m3Err_trapAbort,
   ffi.m3Err_trapUnreachable,
   ffi.m3Err_trapStackOverflow]

/-- The ten trap sentinel pointers are pairwise distinct. -/
def FFI.trapSentinelsDistinct (ffi : FFI) : Prop :=
  ffi.trapSentinels.Nodup

instance (ffi : FFI) : Decidable ffi.trapSentinelsDistinct := by
  unfold FFI.trapSentinelsDistinct
  infer_instance

/-- The `Wasm3Error` struct of src/error.rs: a copyable wrapper of one sentinel
pointer, compared by pointer identity. -/
structure Wasm3Error where
  ptr : Ptr
deriving DecidableEq

/-- `Wasm3Error::is_trap` of src/error.rs: `trap.as_ptr() == self.0`. -/
def Wasm3Error.is_trap (e : Wasm3Error) (ffi : FFI) (trap : Trap) : Bool :=
  trap.as_ptr ffi == e.ptr

/-- `From<Trap> for Wasm3Error` of src/error.rs: wrap the trap's sentinel. -/
def Wasm3Error.ofTrap (ffi : FFI) (trap : Trap) : Wasm3Error :=
  ⟨trap.as_ptr ffi⟩

/-- `From<Wasm3Error> for Trap` of src/error.rs: match the wrapped pointer
against the ten sentinels in source order, falling back to `Abort`. -/
def Trap.ofWasm3Error (ffi : FFI) (wasm3 : Wasm3Error) : Trap :=
  if wasm3.ptr = ffi.m3Err_trapOutOfBoundsMemoryAccess then Trap.OutOfBoundsMemoryAccess
  else if wasm3.ptr = ffi.m3Err_trapDivisionByZero then Trap.DivisionByZero
  else if wasm3.ptr = ffi.m3Err_trapIntegerOverflow then Trap.IntegerOverflow
  else if wasm3.ptr = ffi.m3Err_trapIntegerConversion then Trap.IntegerConversion
  else if wasm3.ptr = ffi.m3Err_trapIndirectCallTypeMismatch then Trap.IndirectCallTypeMismatch
  else if wasm3.ptr = ffi.m3Err_trapTableIndexOutOfRange then Trap.TableIndexOutOfRange
  else if wasm3.ptr = ffi.m3Err_trapExit then Trap.Exit
  else if wasm3.ptr = ffi.m3Err_trapAbort then Trap.Abort
  else if wasm3.ptr = ffi.m3Err_trapUnreachable then Trap.Unreachable
  else if wasm3.ptr = ffi.m3Err_trapStackOverflow then Trap.StackOverflow
  else Trap.Abort

/-- The `Error` enum of src/error.rs. -/
inductive Error where
  | Wasm3 (e : Wasm3Error)
  | InvalidFunctionSignature
  | FunctionNotFound
  | ModuleNotFound
  | ModuleLoadEnvMismatch
  | RuntimeIsActive
deriving DecidableEq

/-- `Error::into_trap` of src/error.rs: extract the wrapped engine error,
substituting the `Abort` sentinel for the non-engine variants, then convert. -/
def Error.into_trap (e : Error) (ffi : FFI) : Trap :=
  let wasm3_err :=
    match e with
    | Error.Wasm3 wasm3 => wasm3
    | _ => Wasm3Error.mk ffi.m3Err_trapAbort
  Trap.ofWasm3Error ffi wasm3_err

/-- `Error::from_ffi_res` of src/error.rs: translate a nullable status
pointer returned by an engine call. -/
def Error.from_ffi_res (ffi : FFI) (ptr : Ptr) : Except Error Unit :=
  if ptr = 0 then Except.ok ()
  else if ptr = ffi.m3Err_functionLookupFailed then Except.error Error.FunctionNotFound
  else Except.error (Error.Wasm3 ⟨ptr⟩)

/-- `Error::malloc_error` of src/error.rs. -/
def Error.malloc_error (ffi : FFI) : Error :=
  Error.Wasm3 ⟨ffi.m3Err_mallocFailed⟩

/-- `From<Wasm3Error> for Error` of src/error.rs. -/
def Error.ofWasm3 (e : Wasm3Error) : Error :=
  Error.Wasm3 e

/-- `From<Trap> for Error` of src/error.rs: `Self::from(Wasm3Error::from(trap))`. -/
def Error.ofTrap (ffi : FFI) (trap : Trap) : Error :=
  Error.ofWasm3 (Wasm3Error.ofTrap ffi trap)

/-- Helper: with pairwise distinct sentinels, `Trap.as_ptr` is injective. -/
theorem trap_as_ptr_inj (ffi : FFI) (h : ffi.trapSentinelsDistinct)
    (t₁ t₂ : Trap) (he : t₁.as_ptr ffi = t₂.as_ptr ffi) : t₁ = t₂ := by
  simp only [FFI.trapSentinelsDistinct, FFI.trapSentinels, List.nodup_cons, List.mem_cons,
    List.mem_singleton, List.not_mem_nil, or_false, not_or, List.nodup_nil, and_true] at h
  cases t₁ <;> cases t₂ <;> simp_all [Trap.as_ptr]

set_option maxHeartbeats 1600000 in
/-- Helper: converting a sentinel that is some trap's sentinel never hits the
fallback: the result's sentinel is the input pointer. -/
theorem ofWasm3Error_as_ptr (ffi : FFI) (wasm3 : Wasm3Error)
    (hx : ∃ u : Trap, wasm3.ptr = u.as_ptr ffi) :
    wasm3.ptr = (Trap.ofWasm3Error ffi wasm3).as_ptr ffi := by
  unfold Trap.ofWasm3Error
  split_ifs with h1 h2 h3 h4 h5 h6 h7 h8 h9 h10
  · exact h1
  · exact h2
  · exact h3
  · exact h4
  · exact h5
  · exact h6
  · exact h7
  · exact h8
  · exact h9
  · exact h10
  · obtain ⟨u, hu⟩ := hx
    cases u <;> simp only [Trap.as_ptr] at hu <;> contradiction

/-- Helper: the sentinel-to-trap round trip, shared by several claims. -/
theorem ofWasm3Error_ofTrap (ffi : FFI) (h : ffi.trapSentinelsDistinct) (t : Trap) :
    Trap.ofWasm3Error ffi (Wasm3Error.ofTrap ffi t) = t := by
  have hm : (Wasm3Error.ofTrap ffi t).ptr = t.as_ptr ffi := rfl
  have hkey := ofWasm3Error_as_ptr ffi (Wasm3Error.ofTrap ffi t) ⟨t, hm⟩
  exact (trap_as_ptr_inj ffi h _ _ (hm.symm.trans hkey)).symm

/-- Modelled from the spec: the Environment collaborator (src/environment.rs is
not among the given sources) is a cheaply clonable handle that is
equality-comparable by identity of the underlying engine handle; it is used for
the cross-environment load check. -/
structure Environment where
  raw : Ptr
deriving DecidableEq

/-- Modelled from the spec: a type-erased, heap-pinned closure registered as a
host-callable target; only its identity matters to the runtime's registries. -/
structure PinnedAnyClosure where
  token : Nat
deriving DecidableEq

/-- Modelled from the spec: a ParsedModule (src/module.rs is not among the
given sources) exposes its originating environment, its native handle, and its
owned backing bytes, taken exactly once during load. -/
structure ParsedModule where
  raw : Ptr
  env : Environment
  data : List Nat
deriving DecidableEq

/-- Modelled from the spec: `ParsedModule::environment`. -/
def ParsedModule.environment (m : ParsedModule) : Environment := m.env

/-- Modelled from the spec: `ParsedModule::as_ptr`, the native module handle. -/
def ParsedModule.as_ptr (m : ParsedModule) : Ptr := m.raw

/-- Modelled from the spec: `ParsedModule::take_data`, the owned backing bytes. -/
def ParsedModule.take_data (m : ParsedModule) : List Nat := m.data

/-- Modelled from the spec: a loaded Module handle borrowing from the runtime;
`Module::from_raw(rt, raw)` wraps the raw module handle. -/
structure Module where
  raw : Ptr
deriving DecidableEq

/-- Modelled from the spec: `Module::from_raw`. -/
def Module.from_raw (raw : Ptr) : Module := ⟨raw⟩

/-- Modelled from the spec: a typed Function handle resolved by the engine. -/
structure Function where
  raw : Ptr
deriving DecidableEq

/-- The `Runtime` struct of src/runtime.rs: the native handle, the optional
environment reference (absent exactly when this wrapper does not own the
handle), and the two append-only lifetime registries. -/
structure Runtime where
  raw : Ptr
  environment : Option Environment
  closure_store : List PinnedAnyClosure
  module_data : List (List Nat)
deriving DecidableEq

/-- `Runtime::load_module` of src/runtime.rs.  The status pointer that the
engine's `m3_LoadModule` call would return is passed in as `linkRes`; the
runtime state after the call is returned alongside the result. -/
def Runtime.load_module (ffi : FFI) (rt : Runtime) (module : ParsedModule)
    (linkRes : Ptr) : Runtime × Except Error Module :=
  match rt.environment with
  | none => (rt, Except.error Error.RuntimeIsActive)
  | some env =>
    if env ≠ module.environment then
      (rt, Except.error Error.ModuleLoadEnvMismatch)
    else
      match Error.from_ffi_res ffi linkRes with
      | Except.error e => (rt, Except.error e)
      | Except.ok _ =>
        ({ rt with module_data := rt.module_data ++ [module.take_data] },
         Except.ok (Module.from_raw module.as_ptr))

/-- `Runtime::find_function` of src/runtime.rs.  `result` is the status pointer
returned by the engine's `m3_FindFunction`, `func_raw` is the handle the engine
wrote through the out-parameter, and `wrap` stands for `Function::from_raw`
(the Function collaborator's wrapping step, which may itself fail). -/
def Runtime.find_function (ffi : FFI) (result : Ptr) (func_raw : Ptr)
    (wrap : Ptr → Except Error Function) : Except Error Function :=
  match Error.from_ffi_res ffi result with
  | Except.error e => Except.error e
  | Except.ok _ =>
    if func_raw = 0 then Except.error Error.FunctionNotFound
    else wrap func_raw

/-- Maximum value of `isize` on a platform whose pointers are `W` bits wide. -/
def isizeMax (W : Nat) : Int := 2 ^ (W - 1) - 1

/-- The Rust cast `len as isize` for a `u32` value `len`, on a platform whose
pointers are `W` bits wide: truncate to `W` bits, reinterpret as two's
complement. -/
def u32AsIsize (W : Nat) (len : Nat) : Int :=
  if len % 2 ^ W < 2 ^ (W - 1) then ((len % 2 ^ W : Nat) : Int)
  else ((len % 2 ^ W : Nat) : Int) - 2 ^ W

/-- The address of `NonNull::<u8>::dangling()`: the alignment of `u8`. -/
def danglingAddr : Ptr := 1

/-- `Runtime::memory` of src/runtime.rs: `data` and `len` are the base pointer
and `u32` byte length reported by the engine's `m3_GetMemory`; the result is
the (base, length) pair of the slice the method returns, on a platform with
`W`-bit pointers. -/
def Runtime.memory (W : Nat) (data : Ptr) (len : Nat) : Ptr × Nat :=
  if data = 0 ∨ u32AsIsize W len > isizeMax W then (danglingAddr, 0)
  else (data, len)

/-- Helper: the length guard of `Runtime::memory` can never fire, because a
`u32` cast to `isize` is always at most `isize::MAX`. -/
theorem u32AsIsize_le_isizeMax (W len : Nat) : u32AsIsize W len ≤ isizeMax W := by
  unfold u32AsIsize isizeMax
  have hc : 0 < 2 ^ W := pow_pos (by norm_num) W
  have hb : 0 < 2 ^ (W - 1) := pow_pos (by norm_num) (W - 1)
  have hlt : len % 2 ^ W < 2 ^ W := Nat.mod_lt len hc
  have e1 : ((2 : Int) ^ (W - 1)) = ((2 ^ (W - 1) : Nat) : Int) := by push_cast; ring
  have e2 : ((2 : Int) ^ W) = ((2 ^ W : Nat) : Int) := by push_cast; ring
  split_ifs with hv
  · rw [e1]
    omega
  · rw [e1, e2]
    omega

/-- Concrete sentinel assignment used by the witnesses: ten distinct trap
sentinels, the lookup-failure sentinel, the malloc-failure sentinel. -/
def ffiW : FFI := ⟨1, 2, 3, 4, 5, 6, 7, 8, 9, 10, 11, 12⟩

/-- Concrete environment handle used by the witnesses. -/
def envA : Environment := ⟨100⟩

/-- A second, distinct concrete environment handle. -/
def envB : Environment := ⟨101⟩

/-- A runtime wrapper that does not own its handle (environment absent). -/
def rtNoEnv : Runtime := ⟨50, none, [], []⟩

/-- A runtime owning its handle, created from `envA`, with empty registries. -/
def rtA : Runtime := ⟨50, some envA, [], []⟩

/-- A parsed module recorded against `envA`. -/
def pmA : ParsedModule := ⟨61, envA, [7, 8]⟩

/-- A parsed module recorded against `envB`. -/
def pmB : ParsedModule := ⟨60, envB, [0, 1]⟩

/-- Claim C1: `load_module` returns `RuntimeIsActive` whenever the runtime's
environment reference is absent — for every module, so the owning check is
decided before the mismatch check — and returns `ModuleLoadEnvMismatch`
whenever the environment is present but not equal to the module's recorded
environment. -/
theorem load_module_owning_then_env_check (ffi : FFI) (rt : Runtime)
    (module : ParsedModule) (linkRes : Ptr) :
    (rt.environment = none →
      (Runtime.load_module ffi rt module linkRes).2 = Except.error Error.RuntimeIsActive)
  ∧ (∀ env : Environment, rt.environment = some env → env ≠ module.environment →
      (Runtime.load_module ffi rt module linkRes).2
        = Except.error Error.ModuleLoadEnvMismatch) := by
  constructor
  · intro hnone
    simp [Runtime.load_module, hnone]
  · intro env hsome hne
    simp [Runtime.load_module, hsome, hne]

/-- Witness for C1 at a non-owning runtime and at an environment mismatch. -/
theorem load_module_owning_then_env_check_witness :
    (Runtime.load_module ffiW rtNoEnv pmB 0).2 = Except.error Error.RuntimeIsActive
  ∧ (Runtime.load_module ffiW rtA pmB 0).2 = Except.error Error.ModuleLoadEnvMismatch := by
  constructor
  · exact (load_module_owning_then_env_check ffiW rtNoEnv pmB 0).1 rfl
  · exact (load_module_owning_then_env_check ffiW rtA pmB 0).2 envA rfl (by decide)

/-- Claim C2: `Error::from_ffi_res` maps a null status pointer to success, the
`functionLookupFailed` sentinel to `FunctionNotFound`, and every other
non-null status pointer to `Error::Wasm3` wrapping exactly that pointer. -/
theorem from_ffi_res_translation (ffi : FFI) (ptr : Ptr) :
    (ptr = 0 → Error.from_ffi_res ffi ptr = Except.ok ())
  ∧ (ptr ≠ 0 → ptr = ffi.m3Err_functionLookupFailed →
      Error.from_ffi_res ffi ptr = Except.error Error.FunctionNotFound)
  ∧ (ptr ≠ 0 → ptr ≠ ffi.m3Err_functionLookupFailed →
      Error.from_ffi_res ffi ptr = Except.error (Error.Wasm3 ⟨ptr⟩)) := by
  refine ⟨fun h0 => ?_, fun hnz heq => ?_, fun hnz hne => ?_⟩
  · simp [Error.from_ffi_res, h0]
  · subst heq
    simp [Error.from_ffi_res, hnz]
  · simp [Error.from_ffi_res, hnz, hne]

/-- Witness for C2 at a null status, the lookup sentinel, and another status. -/
theorem from_ffi_res_translation_witness :
    Error.from_ffi_res ffiW 0 = Except.ok ()
  ∧ Error.from_ffi_res ffiW 11 = Except.error Error.FunctionNotFound
  ∧ Error.from_ffi_res ffiW 3 = Except.error (Error.Wasm3 ⟨3⟩) :=
  ⟨(from_ffi_res_translation ffiW 0).1 rfl,
   (from_ffi_res_translation ffiW 11).2.1 (by decide) rfl,
   (from_ffi_res_translation ffiW 3).2.2 (by decide) (by decide)⟩

/-- Claim C3: for every trap kind, taking its sentinel with `Trap::as_ptr` and
converting that sentinel back through `From<Wasm3Error> for Trap` yields the
original kind, given that the ten sentinels are pairwise distinct. -/
theorem trap_sentinel_roundtrip (ffi : FFI) (h : ffi.trapSentinelsDistinct)
    (t : Trap) : Trap.ofWasm3Error ffi ⟨t.as_ptr ffi⟩ = t :=
  ofWasm3Error_ofTrap ffi h t

/-- Witness for C3 at the concrete sentinel assignment and `Trap.Exit`. -/
theorem trap_sentinel_roundtrip_witness :
    Trap.ofWasm3Error ffiW ⟨Trap.Exit.as_ptr ffiW⟩ = Trap.Exit :=
  trap_sentinel_roundtrip ffiW (by decide) Trap.Exit

/-- Claim C4: `Error::into_trap` is total: an engine-wrapped error whose
sentinel is a known trap's sentinel yields that trap, and each of the five
non-engine semantic variants yields `Trap.Abort`, given that the ten
sentinels are pairwise distinct. -/
theorem into_trap_total (ffi : FFI) (h : ffi.trapSentinelsDistinct) :
    (∀ (w : Wasm3Error) (t : Trap), w.ptr = t.as_ptr ffi →
      (Error.Wasm3 w).into_trap ffi = t)
  ∧ Error.InvalidFunctionSignature.into_trap ffi = Trap.Abort
  ∧ Error.FunctionNotFound.into_trap ffi = Trap.Abort
  ∧ Error.ModuleNotFound.into_trap ffi = Trap.Abort
  ∧ Error.ModuleLoadEnvMismatch.into_trap ffi = Trap.Abort
  ∧ Error.RuntimeIsActive.into_trap ffi = Trap.Abort := by
  have habort : Trap.ofWasm3Error ffi (Wasm3Error.mk ffi.m3Err_trapAbort) = Trap.Abort :=
    ofWasm3Error_ofTrap ffi h Trap.Abort
  refine ⟨?_, habort, habort, habort, habort, habort⟩
  intro w t hw
  have hwt : w = Wasm3Error.ofTrap ffi t := by
    cases w
    simpa [Wasm3Error.ofTrap] using hw
  show Trap.ofWasm3Error ffi w = t
  rw [hwt]
  exact ofWasm3Error_ofTrap ffi h t

/-- Witness for C4 at a wrapped known-trap sentinel and a semantic variant. -/
theorem into_trap_total_witness :
    (Error.Wasm3 ⟨2⟩).into_trap ffiW = Trap.DivisionByZero
  ∧ Error.RuntimeIsActive.into_trap ffiW = Trap.Abort :=
  ⟨(into_trap_total ffiW (by decide)).1 ⟨2⟩ Trap.DivisionByZero (by decide),
   (into_trap_total ffiW (by decide)).2.2.2.2.2⟩

set_option maxHeartbeats 1600000 in
/-- Claim C5: the sentinel-to-trap conversion sends every pointer that is not
one of the ten known trap sentinels to `Trap.Abort`. -/
theorem ofWasm3Error_fallback_abort (ffi : FFI) (wasm3 : Wasm3Error)
    (h : wasm3.ptr ∉ ffi.trapSentinels) :
    Trap.ofWasm3Error ffi wasm3 = Trap.Abort := by
  simp only [FFI.trapSentinels, List.mem_cons, List.mem_singleton, List.not_mem_nil,
    or_false, not_or] at h
  obtain ⟨h1, h2, h3, h4, h5, h6, h7, h8, h9, h10⟩ := h
  unfold Trap.ofWasm3Error
  split_ifs
  rfl

/-- Witness for C5 at a pointer unequal to all ten concrete sentinels. -/
theorem ofWasm3Error_fallback_abort_witness :
    Trap.ofWasm3Error ffiW ⟨42⟩ = Trap.Abort :=
  ofWasm3Error_fallback_abort ffiW ⟨42⟩ (by decide)

/-- Claim C6: the invalid-length half of the claim fails on the code.  On a
32-bit platform the engine length `2 ^ 31` exceeds `isize::MAX`, yet `memory`
propagates the pointer and that length unchanged instead of substituting the
zero-length dangling view: the guard `(len as isize) > isize::MAX` is false
for every `len`, as the last conjunct shows. -/
theorem memory_length_check_dead :
    (2 ^ 31 : Int) > isizeMax 32
  ∧ Runtime.memory 32 5 (2 ^ 31) = (5, 2 ^ 31)
  ∧ ∀ (W len : Nat), u32AsIsize W len ≤ isizeMax W := by
  refine ⟨by decide, by decide, u32AsIsize_le_isizeMax⟩

/-- Claim C7: `find_function` with a null engine status and a null resolved
handle returns `FunctionNotFound`; with a null status and a non-null handle it
returns exactly what the Function wrapping step returns, failures included. -/
theorem find_function_null_and_wrap (ffi : FFI) (result func_raw : Ptr)
    (wrap : Ptr → Except Error Function) :
    (result = 0 → func_raw = 0 →
      Runtime.find_function ffi result func_raw wrap = Except.error Error.FunctionNotFound)
  ∧ (result = 0 → func_raw ≠ 0 →
      Runtime.find_function ffi result func_raw wrap = wrap func_raw) := by
  constructor
  · intro hr hf
    simp [Runtime.find_function, Error.from_ffi_res, hr, hf]
  · intro hr hf
    simp [Runtime.find_function, Error.from_ffi_res, hr, hf]

/-- Witness for C7 at a null handle and at a failing wrapping step. -/
theorem find_function_null_and_wrap_witness :
    Runtime.find_function ffiW 0 0 (fun _ => Except.error Error.InvalidFunctionSignature)
      = Except.error Error.FunctionNotFound
  ∧ Runtime.find_function ffiW 0 7 (fun _ => Except.error Error.InvalidFunctionSignature)
      = Except.error Error.InvalidFunctionSignature :=
  ⟨(find_function_null_and_wrap ffiW 0 0
      (fun _ => Except.error Error.InvalidFunctionSignature)).1 rfl rfl,
   (find_function_null_and_wrap ffiW 0 7
      (fun _ => Except.error Error.InvalidFunctionSignature)).2 rfl (by decide)⟩

/-- Claim C8: `Wasm3Error::is_trap` holds exactly when the wrapped sentinel
equals the trap kind's sentinel, and an engine error built from a trap kind
satisfies `is_trap` at that kind. -/
theorem is_trap_iff_sentinel_eq (ffi : FFI) :
    (∀ (e : Wasm3Error) (k : Trap), e.is_trap ffi k = true ↔ e.ptr = k.as_ptr ffi)
  ∧ (∀ k : Trap, (Wasm3Error.ofTrap ffi k).is_trap ffi k = true) := by
  constructor
  · intro e k
    show (k.as_ptr ffi == e.ptr) = true ↔ e.ptr = k.as_ptr ffi
    rw [beq_iff_eq]
    exact eq_comm
  · intro k
    simp [Wasm3Error.is_trap, Wasm3Error.ofTrap]

/-- Claim C9: `load_module` is atomic on failure: on every error it leaves the
runtime unchanged (both registries included), and on success it leaves the
closure registry unchanged and appends exactly the module's backing bytes as
one new entry of the module-data registry. -/
theorem load_module_atomic (ffi : FFI) (rt : Runtime) (module : ParsedModule)
    (linkRes : Ptr) :
    (∀ e : Error, (Runtime.load_module ffi rt module linkRes).2 = Except.error e →
      (Runtime.load_module ffi rt module linkRes).1 = rt)
  ∧ (∀ m : Module, (Runtime.load_module ffi rt module linkRes).2 = Except.ok m →
      (Runtime.load_module ffi rt module linkRes).1.closure_store = rt.closure_store
      ∧ (Runtime.load_module ffi rt module linkRes).1.module_data
          = rt.module_data ++ [module.take_data]) := by
  cases henv : rt.environment with
  | none =>
    have hev : Runtime.load_module ffi rt module linkRes
        = (rt, Except.error Error.RuntimeIsActive) := by
      unfold Runtime.load_module
      rw [henv]
    rw [hev]
    exact ⟨fun e he => rfl, fun m hm => Except.noConfusion hm⟩
  | some env =>
    by_cases hne : env = module.environment
    · cases hres : Error.from_ffi_res ffi linkRes with
      | error e =>
        have hev : Runtime.load_module ffi rt module linkRes = (rt, Except.error e) := by
          unfold Runtime.load_module
          rw [henv]
          dsimp only
          rw [if_neg (by simp [hne]), hres]
        rw [hev]
        exact ⟨fun e' he => rfl, fun m hm => Except.noConfusion hm⟩
      | ok u =>
        have hev : Runtime.load_module ffi rt module linkRes
            = ({ rt with module_data := rt.module_data ++ [module.take_data] },
               Except.ok (Module.from_raw module.as_ptr)) := by
          unfold Runtime.load_module
          rw [henv]
          dsimp only
          rw [if_neg (by simp [hne]), hres]
        rw [hev]
        exact ⟨fun e he => Except.noConfusion he, fun m hm => ⟨rfl, rfl⟩⟩
    · have hev : Runtime.load_module ffi rt module linkRes
          = (rt, Except.error Error.ModuleLoadEnvMismatch) := by
        unfold Runtime.load_module
        rw [henv]
        dsimp only
        rw [if_pos (by simp [hne])]
      rw [hev]
      exact ⟨fun e he => rfl, fun m hm => Except.noConfusion hm⟩

/-- Witness for C9: an environment mismatch leaves the runtime unchanged, and
a successful load appends the module's bytes as the sole new registry entry. -/
theorem load_module_atomic_witness :
    (Runtime.load_module ffiW rtA pmB 0).1 = rtA
  ∧ (Runtime.load_module ffiW rtA pmA 0).1.module_data = [[7, 8]] := by
  constructor
  · exact (load_module_atomic ffiW rtA pmB 0).1 Error.ModuleLoadEnvMismatch rfl
  · have h := (load_module_atomic ffiW rtA pmA 0).2 (Module.from_raw 61) rfl
    simpa [rtA, pmA, ParsedModule.take_data] using h.2

/-- Claim C10: converting a trap kind into an `Error` through
`From<Trap> for Error` and applying `into_trap` yields the original kind,
given that the ten sentinels are pairwise distinct. -/
theorem error_ofTrap_into_trap_roundtrip (ffi : FFI) (h : ffi.trapSentinelsDistinct)
    (t : Trap) : (Error.ofTrap ffi t).into_trap ffi = t := by
  show Trap.ofWasm3Error ffi (Wasm3Error.ofTrap ffi t) = t
  exact ofWasm3Error_ofTrap ffi h t

/-- Witness for C10 at the concrete sentinel assignment and `StackOverflow`. -/
theorem error_ofTrap_into_trap_roundtrip_witness :
    (Error.ofTrap ffiW Trap.StackOverflow).into_trap ffiW = Trap.StackOverflow :=
  error_ofTrap_into_trap_roundtrip ffiW (by decide) Trap.StackOverflow

end Wasm3
